import Mathlib

/-!
Shallow embedding of the fat12 disk-image inspector (`src/main.rs`) and
verification of its specification claims.

Bytes are modelled as `Nat` values; buffers as `List Nat`.  Every fixed-offset
read of the source is modelled by a bounds-checked read that returns `none`
exactly when the corresponding Rust slice/index operation would panic, so the
fail-stop (panicking) paths of the source appear as `none` / `abort` values.
`u16` arithmetic wraps: it is modelled with an explicit `% 65536`.
-/

namespace Fat12

/-- Read `n` raw bytes starting at offset `i`; `none` exactly when the Rust
slice `buf[i..i+n]` would be out of bounds. -/
def readBytes (buf : List Nat) (i n : Nat) : Option (List Nat) :=
  if i + n ≤ buf.length then some ((buf.drop i).take n) else none

/-- Little-endian value of a byte list (byteorder's `read_u16` / `read_u32`). -/
def leDec : List Nat → Nat
  | [] => 0
  | b :: bs => b + 256 * leDec bs

/-- Little-endian integer field of width `n` at offset `i`. -/
def readLE (buf : List Nat) (i n : Nat) : Option Nat :=
  (readBytes buf i n).map leDec

/-- Single byte at offset `i` (`buf[i]` in the source). -/
def readU8 (buf : List Nat) (i : Nat) : Option Nat :=
  readLE buf i 1

/-- `DiskInfo` record of the source (boot-sector / BPB fields). -/
structure DiskInfo where
  os_name : List Nat
  bytes_per_sector : Nat
  sectors_per_cluster : Nat
  reserved_sectors : Nat
  fats : Nat
  root_dir_entries : Nat
  total_sectors : Nat
  sectors_per_fat : Nat
  sectors_per_track : Nat
  heads : Nat
  boot_signature : Nat
  volume_id : Nat
  volume_label : List Nat
  fs_type : List Nat
deriving DecidableEq

/-- `DiskInfo::new` of the source: fixed-offset decoding of the boot sector.
Offsets are the source's constants (OS_NAME = 3, BYTES_PER_SECTOR = 11, ...,
FS_TYPE = 54 with the source's FS_TYPE_SIZE = 54). -/
def DiskInfo.new (buf : List Nat) : Option DiskInfo := do
  let os_name ← readBytes buf 3 8
  let bytes_per_sector ← readLE buf 11 2
  let sectors_per_cluster ← readU8 buf 13
  let reserved_sectors ← readLE buf 14 2
  let fats ← readU8 buf 16
  let root_dir_entries ← readLE buf 17 2
  let total_sectors ← readLE buf 19 2
  let sectors_per_fat ← readLE buf 22 2
  let sectors_per_track ← readLE buf 24 2
  let heads ← readLE buf 26 2
  let boot_signature ← readU8 buf 38
  let volume_id ← readLE buf 39 4
  let volume_label ← readBytes buf 43 11
  let fs_type ← readBytes buf 54 54
  pure ⟨os_name, bytes_per_sector, sectors_per_cluster, reserved_sectors, fats,
        root_dir_entries, total_sectors, sectors_per_fat, sectors_per_track,
        heads, boot_signature, volume_id, volume_label, fs_type⟩

/-- `DirEntry` record of the source. -/
structure DirEntry where
  file_name : List Nat
  file_ext : List Nat
  attributes : Nat
  reserved : Nat
  create_time : Nat
  create_date : Nat
  last_access_date : Nat
  last_write_time : Nat
  last_write_date : Nat
  flc : Nat
  file_size : Nat
deriving DecidableEq

/-- `DirEntry::new` of the source.  The source reads `last_write_date` from
offset 22 (`DIR_ENTRY_WRITETIME`), not from its own `DIR_ENTRY_WRITEDATE = 24`
constant; that read is kept exactly as the source performs it. -/
def DirEntry.new (buf : List Nat) : Option DirEntry := do
  let file_name ← readBytes buf 0 8
  let file_ext ← readBytes buf 8 3
  let attributes ← readU8 buf 11
  let reserved ← readLE buf 12 2
  let create_time ← readLE buf 14 2
  let create_date ← readLE buf 16 2
  let last_access_date ← readLE buf 18 2
  let last_write_time ← readLE buf 22 2
  let last_write_date ← readLE buf 22 2
  let flc ← readLE buf 26 2
  let file_size ← readLE buf 28 4
  pure ⟨file_name, file_ext, attributes, reserved, create_time, create_date,
        last_access_date, last_write_time, last_write_date, flc, file_size⟩

/-- Proleptic-Gregorian leap-year rule (chrono's `NaiveDate`). -/
def isLeapYear (y : Nat) : Bool :=
  y % 4 == 0 && (y % 100 != 0 || y % 400 == 0)

/-- Length of month `m` of year `y`; 0 for month numbers outside 1..12. -/
def daysInMonth (y m : Nat) : Nat :=
  if m = 1 then 31
  else if m = 2 then (if isLeapYear y then 29 else 28)
  else if m = 3 then 31
  else if m = 4 then 30
  else if m = 5 then 31
  else if m = 6 then 30
  else if m = 7 then 31
  else if m = 8 then 31
  else if m = 9 then 30
  else if m = 10 then 31
  else if m = 11 then 30
  else if m = 12 then 31
  else 0

/-- Validity of a year/month/day triple, as checked by chrono's
`NaiveDate::from_ymd` (which panics on an invalid date). -/
def validYmd (y m d : Nat) : Bool :=
  decide (1 ≤ m) && decide (m ≤ 12) && decide (1 ≤ d) && decide (d ≤ daysInMonth y m)

/-- Validity of an hour/minute/second triple, as checked by chrono's
`and_hms` (which panics on an invalid time). -/
def validHms (h mi s : Nat) : Bool :=
  decide (h ≤ 23) && decide (mi ≤ 59) && decide (s ≤ 59)

/-- Calendar timestamp produced by the source's `to_datetime`. -/
structure NaiveDateTime where
  year : Nat
  month : Nat
  day : Nat
  hour : Nat
  minute : Nat
  second : Nat
deriving DecidableEq

/-- `to_datetime` of the source: unpack the packed FAT date and time and build
a chrono timestamp.  Year is `(date >> 9) + 1980`, month `(date & 0x01E0) >> 5`,
day `date & 0x001F`, hour `time >> 11`, minute `(time & 0x07E0) >> 5`, second
`time & 0x001F` (no 2-second doubling).  chrono aborts (panics) on an invalid
calendar date or time; that fail-stop path is modelled as `none`. -/
def to_datetime (date time : Nat) : Option NaiveDateTime :=
  if validYmd ((date >>> 9) + 1980) ((date &&& 0x01E0) >>> 5) (date &&& 0x001F) &&
      validHms (time >>> 11) ((time &&& 0x07E0) >>> 5) (time &&& 0x001F) then
    some ⟨(date >>> 9) + 1980, (date &&& 0x01E0) >>> 5, date &&& 0x001F,
          time >>> 11, (time &&& 0x07E0) >>> 5, time &&& 0x001F⟩
  else
    none

/-- Byte-level whitespace test matching Rust's `str::trim` on ASCII data. -/
def isWS (b : Nat) : Bool :=
  b == 32 || (decide (9 ≤ b) && decide (b ≤ 13))

/-- Trim whitespace bytes from both ends (Rust's `.trim()`). -/
def trimSpaces (l : List Nat) : List Nat :=
  ((l.dropWhile isWS).reverse.dropWhile isWS).reverse

/-- One formatted output line of `list_rootdir`, kept structurally:
marker character, file size, trimmed name, optional trimmed extension
(present exactly when the entry is not flagged as a directory), and the
creation timestamp.  Terminal string rendering itself is out of scope. -/
structure Line where
  marker : Char
  size : Nat
  name : List Nat
  ext : Option (List Nat)
  created : NaiveDateTime
deriving DecidableEq

/-- Outcome of one iteration of the scan loop on one 32-byte slot. -/
inductive SlotStep where
  | stop : SlotStep
  | skip : SlotStep
  | emit : Line → SlotStep
  | abort : SlotStep
deriving DecidableEq

/-- Continuation byte of a UTF-8 sequence (0x80-0xBF). -/
def isCont (b : Nat) : Bool := decide (128 ≤ b) && decide (b ≤ 191)

/-- Validity under Rust's `str::from_utf8`: standard UTF-8, rejecting
overlong encodings (leads 0xC0/0xC1, short E0/F0 ranges), surrogates
(0xED A0-BF), code points above U+10FFFF (0xF4 90-BF, leads 0xF5+), and
stray continuation bytes.  `from_utf8(...).unwrap()` panics exactly when
this is false. -/
def utf8Valid : List Nat → Bool
  | [] => true
  | b :: bs =>
    if b ≤ 0x7F then utf8Valid bs
    else if 0xC2 ≤ b && b ≤ 0xDF then
      match bs with
      | c1 :: rest => isCont c1 && utf8Valid rest
      | _ => false
    else if b = 0xE0 then
      match bs with
      | c1 :: c2 :: rest =>
        decide (0xA0 ≤ c1) && decide (c1 ≤ 0xBF) && isCont c2 && utf8Valid rest
      | _ => false
    else if (0xE1 ≤ b && b ≤ 0xEC) || b = 0xEE || b = 0xEF then
      match bs with
      | c1 :: c2 :: rest => isCont c1 && isCont c2 && utf8Valid rest
      | _ => false
    else if b = 0xED then
      match bs with
      | c1 :: c2 :: rest =>
        decide (0x80 ≤ c1) && decide (c1 ≤ 0x9F) && isCont c2 && utf8Valid rest
      | _ => false
    else if b = 0xF0 then
      match bs with
      | c1 :: c2 :: c3 :: rest =>
        decide (0x90 ≤ c1) && decide (c1 ≤ 0xBF) && isCont c2 && isCont c3 && utf8Valid rest
      | _ => false
    else if 0xF1 ≤ b && b ≤ 0xF3 then
      match bs with
      | c1 :: c2 :: c3 :: rest => isCont c1 && isCont c2 && isCont c3 && utf8Valid rest
      | _ => false
    else if b = 0xF4 then
      match bs with
      | c1 :: c2 :: c3 :: rest =>
        decide (0x80 ≤ c1) && decide (c1 ≤ 0x8F) && isCont c2 && isCont c3 && utf8Valid rest
      | _ => false
    else false

/-- Body of one `list_rootdir` loop iteration on an already-read slot:
the 0xFFF0 sentinel check, the 0x0F attribute skip, the literal
`(attributes | 0x10) == 0` directory test, and line formatting.
`abort` covers the panic paths in the source's evaluation order: the
`from_utf8(file_name).unwrap()` of the first `print!`, then (for a
non-directory) the `from_utf8(file_ext).unwrap()` of the second, then the
chrono panic inside `to_datetime` on an invalid timestamp. -/
def processSlot (sl : List Nat) : SlotStep :=
  match readLE sl 0 2 with
  | none => SlotStep.abort
  | some w =>
    if w &&& 0xFFF0 == 0 then SlotStep.stop
    else
      match DirEntry.new sl with
      | none => SlotStep.abort
      | some e =>
        if e.attributes &&& 0x0F != 0 then SlotStep.skip
        else
          let is_dir := (e.attributes ||| 0x10) == 0
          if !(utf8Valid e.file_name) then SlotStep.abort
          else if !is_dir && !(utf8Valid e.file_ext) then SlotStep.abort
          else
            match to_datetime e.create_date e.create_time with
            | none => SlotStep.abort
            | some ts =>
              SlotStep.emit ⟨if is_dir then 'd' else 'f', e.file_size,
                             trimSpaces e.file_name,
                             if is_dir then none else some (trimSpaces e.file_ext),
                             ts⟩

/-- Result of a scan: the emitted lines, the number of successful 32-byte
reads performed, and whether the scan ended in a failure (I/O error or
panic) instead of running to completion. -/
structure ScanResult where
  lines : List Line
  slotsRead : Nat
  aborted : Bool
deriving DecidableEq

/-- The `for _ in 0..root_dir_entries` loop of `list_rootdir`, reading
successive 32-byte slots of `image` starting at byte offset `pos`. -/
def scanAt (image : List Nat) : Nat → Nat → ScanResult
  | _, 0 => ⟨[], 0, false⟩
  | pos, n + 1 =>
    match readBytes image pos 32 with
    | none => ⟨[], 0, true⟩
    | some sl =>
      match processSlot sl with
      | SlotStep.stop => ⟨[], 1, false⟩
      | SlotStep.abort => ⟨[], 1, true⟩
      | SlotStep.skip =>
        let r := scanAt image (pos + 32) n
        ⟨r.lines, r.slotsRead + 1, r.aborted⟩
      | SlotStep.emit l =>
        let r := scanAt image (pos + 32) n
        ⟨l :: r.lines, r.slotsRead + 1, r.aborted⟩

/-- Root-directory start offset of `list_rootdir`:
`(info.bytes_per_sector * (info.fats as u16 * info.sectors_per_fat + 1)) as u64`,
with every `u16` operation wrapping mod 2^16. -/
def rootDirStart (info : DiskInfo) : Nat :=
  info.bytes_per_sector * ((info.fats * info.sectors_per_fat % 65536 + 1) % 65536) % 65536

/-- `list_rootdir` of the source: seek to the computed root-directory offset,
then scan up to `root_dir_entries` slots. -/
def list_rootdir (info : DiskInfo) (image : List Nat) : ScanResult :=
  scanAt image (rootDirStart info) info.root_dir_entries

/-- A run of `n` zero padding bytes. -/
def pad (n : Nat) : List Nat := List.replicate n 0

/-- Little-endian encoding of a 16-bit value (spec-side, for round trips). -/
def le16 (v : Nat) : List Nat := [v % 256, v / 256 % 256]

/-- Little-endian encoding of a 32-bit value (spec-side, for round trips). -/
def le32 (v : Nat) : List Nat :=
  [v % 256, v / 256 % 256, v / 65536 % 256, v / 16777216 % 256]

/-- Spec-side encoder for the round-trip claims: a 512-byte boot sector with
the given field values placed at the standard FAT BPB offsets of the spec's
field table (jump 0-2, os_name 3-10, bytes_per_sector 11-12,
sectors_per_cluster 13, reserved_sectors 14-15, fats 16, root_dir_entries
17-18, total_sectors 19-20, media 21, sectors_per_fat 22-23,
sectors_per_track 24-25, heads 26-27, hidden/FAT32-total/drive/reserved
28-37, boot_signature 38, volume_id 39-42, volume_label 43-53,
fs_type 54-107, zero padding to 512). -/
def mkBootSector (osn : List Nat) (bps spc resv fats rde total spf spt heads bsig vid : Nat)
    (lbl fst : List Nat) : List Nat :=
  [0, 0, 0] ++ osn ++ le16 bps ++ [spc] ++ le16 resv ++ [fats] ++ le16 rde ++
    le16 total ++ [0] ++ le16 spf ++ le16 spt ++ le16 heads ++
    pad 10 ++ [bsig] ++ le32 vid ++ lbl ++ fst ++ pad 404

/-- Spec-side encoder for the directory-entry round-trip claim: a 32-byte
slot with the given field values at the standard fixed offsets of the spec's
field table (name 0-7, ext 8-10, attributes 11, reserved 12-13, create_time
14-15, create_date 16-17, last_access_date 18-19, unused 20-21,
last_write_time 22-23, last_write_date 24-25, flc 26-27, file_size 28-31). -/
def mkDirEntryBuf (name ext : List Nat) (attrs resv ctime cdate adate wtime wdate flc size : Nat) :
    List Nat :=
  name ++ ext ++ [attrs] ++ le16 resv ++ le16 ctime ++ le16 cdate ++
    le16 adate ++ [0, 0] ++ le16 wtime ++ le16 wdate ++ le16 flc ++ le32 size

/-- `info` with its `reserved_sectors` field replaced (used to state that the
offset computation never consults that field). -/
def withReserved (info : DiskInfo) (r : Nat) : DiskInfo :=
  ⟨info.os_name, info.bytes_per_sector, info.sectors_per_cluster, r, info.fats,
   info.root_dir_entries, info.total_sectors, info.sectors_per_fat,
   info.sectors_per_track, info.heads, info.boot_signature, info.volume_id,
   info.volume_label, info.fs_type⟩

/-- Concrete live slot: name "A", attribute byte 0x00, creation date 0x0021. -/
def w1slot : List Nat :=
  mkDirEntryBuf [65, 32, 32, 32, 32, 32, 32, 32] [32, 32, 32] 0 0 0 33 0 0 0 0 0

/-- The line `w1slot` is rendered to. -/
def w1line : Line := ⟨'f', 0, [65], some [], ⟨1980, 1, 1, 0, 0, 0⟩⟩

/-- Geometry whose root directory starts at offset 0 and holds 3 slots. -/
def w1info : DiskInfo := ⟨[], 0, 0, 0, 0, 3, 0, 0, 0, 0, 0, 0, [], []⟩

/-- Image: one live slot followed by an all-zero (sentinel) slot. -/
def w1image : List Nat := w1slot ++ pad 32

/-- Slot with attribute byte 0x20 (Archive) but packed creation date 0,
which decodes to the invalid calendar date month 0 / day 0. -/
def c2slot : List Nat :=
  mkDirEntryBuf [66, 32, 32, 32, 32, 32, 32, 32] [32, 32, 32] 32 0 0 0 0 0 0 0 0

/-- Image holding `c2slot` followed by a sentinel slot. -/
def c2image : List Nat := c2slot ++ pad 32

/-- Slot with attribute byte 0x08 (VolumeLabel). -/
def c2slot08 : List Nat :=
  mkDirEntryBuf [72, 32, 32, 32, 32, 32, 32, 32] [32, 32, 32] 8 0 0 0 0 0 0 0 0

/-- The decoded form of `c2slot08`. -/
def c2ent08 : DirEntry :=
  ⟨[72, 32, 32, 32, 32, 32, 32, 32], [32, 32, 32], 8, 0, 0, 0, 0, 0, 0, 0, 0⟩

/-- Slot with attribute byte 0x02 (Hidden). -/
def c2slot02 : List Nat :=
  mkDirEntryBuf [72, 32, 32, 32, 32, 32, 32, 32] [32, 32, 32] 2 0 0 0 0 0 0 0 0

/-- Image: one live Archive-attribute slot (valid creation date), then a sentinel. -/
def c2img20 : List Nat :=
  mkDirEntryBuf [71, 32, 32, 32, 32, 32, 32, 32] [32, 32, 32] 32 0 0 33 0 0 0 0 0 ++ pad 32

/-- Image: one live zero-attribute slot (valid creation date), then a sentinel. -/
def c2img00 : List Nat :=
  mkDirEntryBuf [71, 32, 32, 32, 32, 32, 32, 32] [32, 32, 32] 0 0 0 33 0 0 0 0 0 ++ pad 32

/-- Concrete live slot with name "FILE" and extension "TXT". -/
def w4slot : List Nat :=
  mkDirEntryBuf [70, 73, 76, 69, 32, 32, 32, 32] [84, 88, 84] 0 0 0 33 0 0 0 0 7

/-- The line `w4slot` is rendered to. -/
def w4line : Line := ⟨'f', 7, [70, 73, 76, 69], some [84, 88, 84], ⟨1980, 1, 1, 0, 0, 0⟩⟩

/-- Geometry with bytes_per_sector 512, 2 FATs, 64 sectors per FAT: the true
offset 512 * (2 * 64 + 1) = 66048 exceeds 65535, so the u16 product wraps. -/
def c3info : DiskInfo := ⟨[], 512, 0, 0, 2, 0, 0, 64, 0, 0, 0, 0, [], []⟩

/-- The standard 1.44 MB floppy geometry of the spec example. -/
def w3info : DiskInfo := ⟨[], 512, 0, 0, 2, 0, 0, 9, 0, 0, 0, 0, [], []⟩

/-- A wrapping geometry (same fields as `c3info`) used for the C10 witness. -/
def w10info : DiskInfo := ⟨[], 512, 0, 0, 2, 0, 0, 64, 0, 0, 0, 0, [], []⟩

theorem length_le16 (v : Nat) : (le16 v).length = 2 := rfl

theorem length_le32 (v : Nat) : (le32 v).length = 4 := rfl

theorem length_pad (n : Nat) : (pad n).length = n := by simp [pad]

theorem leDec_single (b : Nat) : leDec [b] = b := by simp [leDec]

theorem leDec_le16 (v : Nat) (h : v < 65536) : leDec (le16 v) = v := by
  simp [leDec, le16]
  omega

theorem leDec_le32 (v : Nat) (h : v < 4294967296) : leDec (le32 v) = v := by
  simp [leDec, le32]
  omega

theorem readBytes_shift (a buf : List Nat) (i n : Nat) (h : a.length ≤ i) :
    readBytes (a ++ buf) i n = readBytes buf (i - a.length) n := by
  have hi : i = a.length + (i - a.length) := by omega
  have hdrop : (a ++ buf).drop i = buf.drop (i - a.length) := by
    conv_lhs => rw [hi]
    exact List.drop_append (i - a.length)
  unfold readBytes
  by_cases hc : i - a.length + n ≤ buf.length
  · rw [if_pos (by simp; omega), if_pos hc, hdrop]
  · rw [if_neg (by simp; omega), if_neg hc]

theorem readBytes_cons (b : Nat) (buf : List Nat) (i n : Nat) (h : 1 ≤ i) :
    readBytes (b :: buf) i n = readBytes buf (i - 1) n :=
  readBytes_shift [b] buf i n h

theorem readBytes_head (b : Nat) (buf : List Nat) : readBytes (b :: buf) 0 1 = some [b] := by
  unfold readBytes
  simp

theorem readBytes_prefix (seg post : List Nat) (n : Nat) (h : seg.length = n) :
    readBytes (seg ++ post) 0 n = some seg := by
  unfold readBytes
  rw [if_pos (by simp; omega), List.drop_zero, List.take_left' h]

theorem rootDirStart_eq (info : DiskInfo) :
    rootDirStart info = info.bytes_per_sector * (info.fats * info.sectors_per_fat + 1) % 65536 := by
  unfold rootDirStart
  conv_rhs => rw [Nat.mul_mod, Nat.add_mod (info.fats * info.sectors_per_fat) 1]
  conv_lhs => rw [Nat.mul_mod]
  simp

theorem or16_beq_false (a : Nat) : ((a ||| 16) == 0) = false := by
  simp only [beq_eq_false_iff_ne, ne_eq]
  intro h0
  have h : (a ||| 16).testBit 4 = true := by
    rw [Nat.testBit_or]
    simp only [Bool.or_eq_true]
    exact Or.inr (by decide)
  rw [h0] at h
  simp [Nat.zero_testBit] at h

theorem diskInfoShortNone (buf : List Nat) (h : buf.length < 108) :
    DiskInfo.new buf = none := by
  have hf : readBytes buf 54 54 = none := by
    unfold readBytes
    rw [if_neg]
    omega
  unfold DiskInfo.new
  cases readBytes buf 3 8 with
  | none => rfl
  | some a1 =>
  cases readLE buf 11 2 with
  | none => rfl
  | some a2 =>
  cases readU8 buf 13 with
  | none => rfl
  | some a3 =>
  cases readLE buf 14 2 with
  | none => rfl
  | some a4 =>
  cases readU8 buf 16 with
  | none => rfl
  | some a5 =>
  cases readLE buf 17 2 with
  | none => rfl
  | some a6 =>
  cases readLE buf 19 2 with
  | none => rfl
  | some a7 =>
  cases readLE buf 22 2 with
  | none => rfl
  | some a8 =>
  cases readLE buf 24 2 with
  | none => rfl
  | some a9 =>
  cases readLE buf 26 2 with
  | none => rfl
  | some a10 =>
  cases readU8 buf 38 with
  | none => rfl
  | some a11 =>
  cases readLE buf 39 4 with
  | none => rfl
  | some a12 =>
  cases readBytes buf 43 11 with
  | none => rfl
  | some a13 =>
  rw [hf]
  rfl

theorem dirEntryShortNone (buf : List Nat) (h : buf.length < 32) :
    DirEntry.new buf = none := by
  have hf : readBytes buf 28 4 = none := by
    unfold readBytes
    rw [if_neg]
    omega
  unfold DirEntry.new
  cases readBytes buf 0 8 with
  | none => rfl
  | some a1 =>
  cases readBytes buf 8 3 with
  | none => rfl
  | some a2 =>
  cases readU8 buf 11 with
  | none => rfl
  | some a3 =>
  cases readLE buf 12 2 with
  | none => rfl
  | some a4 =>
  cases readLE buf 14 2 with
  | none => rfl
  | some a5 =>
  cases readLE buf 16 2 with
  | none => rfl
  | some a6 =>
  cases readLE buf 18 2 with
  | none => rfl
  | some a7 =>
  cases readLE buf 22 2 with
  | none => rfl
  | some a8 =>
  cases readLE buf 26 2 with
  | none => rfl
  | some a9 =>
  unfold readLE
  rw [hf]
  rfl

theorem scanAt_spec (image : List Nat) :
    ∀ N start cap, N < cap →
      (∀ i, i < N → ∃ sl l, readBytes image (start + 32 * i) 32 = some sl ∧
        processSlot sl = SlotStep.emit l) →
      (∃ sl, readBytes image (start + 32 * N) 32 = some sl ∧ processSlot sl = SlotStep.stop) →
      (scanAt image start cap).lines.length = N ∧
        (scanAt image start cap).slotsRead = N + 1 ∧
        (scanAt image start cap).aborted = false := by
  intro N
  induction N with
  | zero =>
    intro start cap hcap hlive hstop
    obtain ⟨c, rfl⟩ : ∃ c, cap = c + 1 := ⟨cap - 1, by omega⟩
    obtain ⟨sl, hrd, hps⟩ := hstop
    rw [Nat.mul_zero, Nat.add_zero] at hrd
    simp [scanAt, hrd, hps]
  | succ m ih =>
    intro start cap hcap hlive hstop
    obtain ⟨c, rfl⟩ : ∃ c, cap = c + 1 := ⟨cap - 1, by omega⟩
    obtain ⟨sl, l, hrd, hps⟩ := hlive 0 (by omega)
    rw [Nat.mul_zero, Nat.add_zero] at hrd
    have hlive2 : ∀ i, i < m → ∃ sl2 l2,
        readBytes image (start + 32 + 32 * i) 32 = some sl2 ∧
          processSlot sl2 = SlotStep.emit l2 := by
      intro i hi
      obtain ⟨sl2, l2, hb1, hb2⟩ := hlive (i + 1) (by omega)
      rw [show start + 32 * (i + 1) = start + 32 + 32 * i by ring] at hb1
      exact ⟨sl2, l2, hb1, hb2⟩
    have hstop2 : ∃ sl2, readBytes image (start + 32 + 32 * m) 32 = some sl2 ∧
        processSlot sl2 = SlotStep.stop := by
      obtain ⟨sl2, hb1, hb2⟩ := hstop
      rw [show start + 32 * (m + 1) = start + 32 + 32 * m by ring] at hb1
      exact ⟨sl2, hb1, hb2⟩
    obtain ⟨ha, hb, hc⟩ := ih (start + 32) c (by omega) hlive2 hstop2
    simp [scanAt, hrd, hps, ha, hb, hc]

/-- Claim C3, counterexample: the offset computation is performed in wrapping
u16 arithmetic, so for the geometry `c3info` (bytes_per_sector 512, 2 FATs,
64 sectors per FAT) the computed offset is not the exact product
`bytes_per_sector * (fats * sectors_per_fat + 1) = 66048`. -/
theorem claim3_cx :
    rootDirStart c3info ≠
      c3info.bytes_per_sector * (c3info.fats * c3info.sectors_per_fat + 1) := by
  decide

/-- Claim C3, amended: the scanner computes the root-directory start offset
from `bytes_per_sector * (fats * sectors_per_fat + 1)` without consulting
`reserved_sectors`; the computed offset equals that product exactly whenever
the product fits in 16 bits (the arithmetic is u16 and wraps otherwise), and
for bytes_per_sector = 512, fats = 2, sectors_per_fat = 9 it equals 9728. -/
theorem claim3 :
    (∀ info r, rootDirStart (withReserved info r) = rootDirStart info) ∧
    (∀ info : DiskInfo,
      info.bytes_per_sector * (info.fats * info.sectors_per_fat + 1) < 65536 →
      rootDirStart info = info.bytes_per_sector * (info.fats * info.sectors_per_fat + 1)) ∧
    (∀ info : DiskInfo, info.bytes_per_sector = 512 → info.fats = 2 →
      info.sectors_per_fat = 9 → rootDirStart info = 9728) := by
  refine ⟨fun info r => rfl, fun info h => ?_, fun info hb hf hs => ?_⟩
  · rw [rootDirStart_eq]
    exact Nat.mod_eq_of_lt h
  · rw [rootDirStart_eq, hb, hf, hs]

/-- Witness for `claim3` at the spec's 1.44 MB floppy geometry. -/
theorem claim3_witness : rootDirStart w3info = 9728 :=
  claim3.2.2 w3info (by decide) (by decide) (by decide)

/-- Claim C10: the seek offset is computed in u16 arithmetic before widening,
so it equals `(bytes_per_sector * (fats * sectors_per_fat + 1)) mod 2^16`, and
any geometry whose true offset is at least 65536 seeks to a smaller, wrapped
position. -/
theorem claim10 :
    (∀ info : DiskInfo,
      rootDirStart info =
        info.bytes_per_sector * (info.fats * info.sectors_per_fat + 1) % 65536) ∧
    (∀ info : DiskInfo,
      65536 ≤ info.bytes_per_sector * (info.fats * info.sectors_per_fat + 1) →
      rootDirStart info < info.bytes_per_sector * (info.fats * info.sectors_per_fat + 1)) := by
  refine ⟨rootDirStart_eq, fun info h => ?_⟩
  rw [rootDirStart_eq]
  have hlt : info.bytes_per_sector * (info.fats * info.sectors_per_fat + 1) % 65536 < 65536 :=
    Nat.mod_lt _ (by omega)
  omega

/-- Witness for `claim10` at a wrapping geometry. -/
theorem claim10_witness :
    rootDirStart w10info <
      w10info.bytes_per_sector * (w10info.fats * w10info.sectors_per_fat + 1) :=
  claim10.2 w10info (by decide)

/-- Claim C5: `to_datetime` decodes year, month, day, hour, minute and second
by the stated bit formulas with no 2-second doubling, and
`decode(0x0021, 0x0000)` is 1980-01-01 00:00:00. -/
theorem claim5 :
    (∀ d t ts, to_datetime d t = some ts →
      ts.year = (d >>> 9) + 1980 ∧ ts.month = (d &&& 0x01E0) >>> 5 ∧
        ts.day = d &&& 0x001F ∧ ts.hour = t >>> 11 ∧
        ts.minute = (t &&& 0x07E0) >>> 5 ∧ ts.second = t &&& 0x001F) ∧
    to_datetime 0x0021 0x0000 = some ⟨1980, 1, 1, 0, 0, 0⟩ := by
  constructor
  · intro d t ts h
    unfold to_datetime at h
    split at h
    · cases h
      exact ⟨rfl, rfl, rfl, rfl, rfl, rfl⟩
    · cases h
  · decide

/-- Witness for `claim5` at packed date 0x0021, packed time 0. -/
theorem claim5_witness :
    (⟨1980, 1, 1, 0, 0, 0⟩ : NaiveDateTime).year = (33 >>> 9) + 1980 ∧
      (⟨1980, 1, 1, 0, 0, 0⟩ : NaiveDateTime).month = (33 &&& 0x01E0) >>> 5 ∧
      (⟨1980, 1, 1, 0, 0, 0⟩ : NaiveDateTime).day = 33 &&& 0x001F ∧
      (⟨1980, 1, 1, 0, 0, 0⟩ : NaiveDateTime).hour = 0 >>> 11 ∧
      (⟨1980, 1, 1, 0, 0, 0⟩ : NaiveDateTime).minute = (0 &&& 0x07E0) >>> 5 ∧
      (⟨1980, 1, 1, 0, 0, 0⟩ : NaiveDateTime).second = 0 &&& 0x001F :=
  claim5.1 33 0 ⟨1980, 1, 1, 0, 0, 0⟩ (by decide)

/-- Claim C9: when the decoded month/day combination is not a valid calendar
date (month 0, day 0, or day exceeding the month's length), the decoder
fails (the source aborts in chrono; modelled as `none`) instead of returning
a timestamp. -/
theorem claim9 :
    ∀ date time,
      ((date &&& 0x01E0) >>> 5 = 0 ∨ date &&& 0x001F = 0 ∨
        daysInMonth ((date >>> 9) + 1980) ((date &&& 0x01E0) >>> 5) < date &&& 0x001F) →
      to_datetime date time = none := by
  intro date time h
  have hc : ¬((validYmd ((date >>> 9) + 1980) ((date &&& 0x01E0) >>> 5) (date &&& 0x001F) &&
      validHms (time >>> 11) ((time &&& 0x07E0) >>> 5) (time &&& 0x001F)) = true) := by
    intro hcc
    rw [Bool.and_eq_true] at hcc
    obtain ⟨h1, _⟩ := hcc
    unfold validYmd at h1
    simp only [Bool.and_eq_true, decide_eq_true_eq] at h1
    omega
  unfold to_datetime
  rw [if_neg hc]

/-- Witness for `claim9`: packed date 0 decodes to month 0, day 0. -/
theorem claim9_witness : to_datetime 0 0 = none :=
  claim9 0 0 (Or.inl (by decide))

/-- Claim C6: the directory-entry round trip FAILS for `last_write_date`.
The parser reads that field from offset 22 (the write-time offset; the
source's `DIR_ENTRY_WRITEDATE = 24` constant is declared but never used), so
a buffer whose write-time field (offset 22) is 0x1234 and whose write-date
field (offset 24) is 0x5678 parses with `last_write_date = 0x1234`, not the
encoded 0x5678; every other field is recovered exactly. -/
theorem claim6 :
    DirEntry.new (mkDirEntryBuf [78, 65, 77, 69, 32, 32, 32, 32] [84, 88, 84]
        32 0 0 33 0 4660 22136 2 1000) =
      some ⟨[78, 65, 77, 69, 32, 32, 32, 32], [84, 88, 84],
            32, 0, 0, 33, 0, 4660, 4660, 2, 1000⟩ ∧
    Option.map DirEntry.last_write_date
        (DirEntry.new (mkDirEntryBuf [78, 65, 77, 69, 32, 32, 32, 32] [84, 88, 84]
          32 0 0 33 0 4660 22136 2 1000)) ≠ some 22136 := by
  constructor
  · decide
  · decide

/-- Claim C8: any buffer shorter than the furthest offset+width the decoder
touches (108 bytes for the boot-sector parser, 32 bytes for the
directory-entry parser) makes the parse fail; every byte access in the
embedding is bounds-checked, so no out-of-range read occurs. -/
theorem claim8 :
    (∀ buf : List Nat, buf.length < 108 → DiskInfo.new buf = none) ∧
    (∀ buf : List Nat, buf.length < 32 → DirEntry.new buf = none) :=
  ⟨fun buf h => diskInfoShortNone buf h, fun buf h => dirEntryShortNone buf h⟩

/-- Witness for `claim8`: a 10-byte buffer and a 31-byte buffer both fail. -/
theorem claim8_witness :
    DiskInfo.new (pad 10) = none ∧ DirEntry.new (pad 31) = none :=
  ⟨claim8.1 (pad 10) (by decide), claim8.2 (pad 31) (by decide)⟩

/-- Claim C1: a slot whose first two bytes decode (little-endian) to a value
that is zero under the 0xFFF0 mask stops the scan; a stopping slot is read
but nothing after it is; and when the first N slots of the root-directory
region are live displayable entries (they decode, pass both checks, their
name and extension bytes are valid UTF-8, and their creation timestamp
decodes, i.e. `processSlot` emits) and slot N+1 begins with two zero bytes,
`list` emits exactly N lines and reads exactly N+1 slots. -/
theorem claim1 :
    (∀ sl w, readLE sl 0 2 = some w → w &&& 0xFFF0 = 0 →
      processSlot sl = SlotStep.stop) ∧
    (∀ image pos n sl, readBytes image pos 32 = some sl →
      processSlot sl = SlotStep.stop → scanAt image pos (n + 1) = ⟨[], 1, false⟩) ∧
    (∀ info image N, N < info.root_dir_entries →
      (∀ i, i < N → ∃ sl l, readBytes image (rootDirStart info + 32 * i) 32 = some sl ∧
        processSlot sl = SlotStep.emit l) →
      (∃ rest, readBytes image (rootDirStart info + 32 * N) 32 = some (0 :: 0 :: rest)) →
      (list_rootdir info image).lines.length = N ∧
        (list_rootdir info image).slotsRead = N + 1) := by
  refine ⟨?_, ?_, ?_⟩
  · intro sl w hr hw
    simp [processSlot, hr, hw]
  · intro image pos n sl h1 h2
    simp [scanAt, h1, h2]
  · intro info image N hcap hlive hsent
    obtain ⟨rest, hr⟩ := hsent
    have hle : readLE (0 :: 0 :: rest) 0 2 = some 0 := by
      unfold readLE readBytes
      rw [if_pos (by simp only [List.length_cons]; omega)]
      simp [leDec]
    have hstop : ∃ sl, readBytes image (rootDirStart info + 32 * N) 32 = some sl ∧
        processSlot sl = SlotStep.stop :=
      ⟨0 :: 0 :: rest, hr, by simp [processSlot, hle]⟩
    obtain ⟨ha, hb, _⟩ :=
      scanAt_spec image N (rootDirStart info) info.root_dir_entries hcap hlive hstop
    exact ⟨ha, hb⟩

/-- Witness for `claim1`: one live slot, then an all-zero slot; the listing
emits one line and reads two slots. -/
theorem claim1_witness :
    (list_rootdir w1info w1image).lines.length = 1 ∧
      (list_rootdir w1info w1image).slotsRead = 2 :=
  claim1.2.2 w1info w1image 1 (by decide)
    (fun i hi => by
      have h0 : i = 0 := by omega
      subst h0
      exact ⟨w1slot, w1line, by decide, by decide⟩)
    ⟨pad 30, by decide⟩

/-- Claim C2, counterexample: `c2slot` passes the termination check (its
first two bytes decode to 0x2042, nonzero under the mask) and carries
attribute byte 0x20 (Archive), yet the scanner produces NO output line for
it: its packed creation date 0 makes `to_datetime` abort, so a root
directory holding it yields an empty listing, refuting the claim that an
entry with attribute byte 0x20 always produces exactly one output line. -/
theorem claim2_cx :
    readLE c2slot 0 2 = some 8258 ∧ 8258 &&& 0xFFF0 ≠ 0 ∧
    Option.map DirEntry.attributes (DirEntry.new c2slot) = some 32 ∧
    processSlot c2slot = SlotStep.abort ∧
    (scanAt c2image 0 2).lines = [] :=
  ⟨by decide, by decide, by decide, by decide, by decide⟩

/-- Claim C2, amended: a decoded slot that passed the termination check and
has any of the low four attribute bits set is skipped with no output and the
scan moves on to the next slot; a slot whose low four attribute bits are
clear produces exactly one line provided its name and extension bytes are
valid UTF-8 and its packed creation date/time decode to a valid timestamp
(otherwise the scanner aborts — on the `from_utf8(...).unwrap()` or the
chrono panic — without emitting a complete line); concretely, attribute
0x08 and 0x02 slots are skipped and live attribute 0x20 and 0x00 slots
with ASCII names and valid creation dates each produce one line. -/
theorem claim2 :
    (∀ sl w e, readLE sl 0 2 = some w → w &&& 0xFFF0 ≠ 0 → DirEntry.new sl = some e →
      e.attributes &&& 0x0F ≠ 0 → processSlot sl = SlotStep.skip) ∧
    (∀ image pos n sl, readBytes image pos 32 = some sl →
      processSlot sl = SlotStep.skip →
      (scanAt image pos (n + 1)).lines = (scanAt image (pos + 32) n).lines ∧
        (scanAt image pos (n + 1)).slotsRead = (scanAt image (pos + 32) n).slotsRead + 1) ∧
    (∀ sl w e ts, readLE sl 0 2 = some w → w &&& 0xFFF0 ≠ 0 → DirEntry.new sl = some e →
      e.attributes &&& 0x0F = 0 → utf8Valid e.file_name = true →
      utf8Valid e.file_ext = true → to_datetime e.create_date e.create_time = some ts →
      ∃ l, processSlot sl = SlotStep.emit l) ∧
    (processSlot c2slot08 = SlotStep.skip ∧ processSlot c2slot02 = SlotStep.skip ∧
      (scanAt c2img20 0 2).lines.length = 1 ∧ (scanAt c2img00 0 2).lines.length = 1) := by
  refine ⟨?_, ?_, ?_, by decide, by decide, by decide, by decide⟩
  · intro sl w e hr hw hnew hattr
    have hw2 : (w &&& 0xFFF0 == 0) = false := by
      rw [beq_eq_false_iff_ne]
      exact hw
    have hattr2 : (e.attributes &&& 0x0F != 0) = true := by
      rw [bne_iff_ne]
      exact hattr
    simp [processSlot, hr, hw2, hnew, hattr2]
  · intro image pos n sl h1 h2
    constructor <;> simp [scanAt, h1, h2]
  · intro sl w e ts hr hw hnew hattr hn hx hts
    have hw2 : (w &&& 0xFFF0 == 0) = false := by
      rw [beq_eq_false_iff_ne]
      exact hw
    have hattr2 : (e.attributes &&& 0x0F != 0) = false := by
      rw [bne_eq_false_iff_eq]
      exact hattr
    exact ⟨⟨'f', e.file_size, trimSpaces e.file_name, some (trimSpaces e.file_ext), ts⟩,
      by simp [processSlot, hr, hw2, hnew, hattr2, hn, hx, hts, or16_beq_false]⟩

/-- Witness for `claim2`: the VolumeLabel-attribute slot is skipped. -/
theorem claim2_witness : processSlot c2slot08 = SlotStep.skip :=
  claim2.1 c2slot08 8264 c2ent08 (by decide) (by decide) (by decide) (by decide)

/-- Claim C4: the literal directory test `(attributes | 0x10) == 0` is false
for every attribute value, so every emitted line carries the file marker
'f' and an appended trimmed extension. -/
theorem claim4 :
    (∀ a : Nat, ((a ||| 0x10) == 0) = false) ∧
    (∀ sl l, processSlot sl = SlotStep.emit l → l.marker = 'f' ∧
      ∃ e, DirEntry.new sl = some e ∧ l.ext = some (trimSpaces e.file_ext)) := by
  refine ⟨or16_beq_false, ?_⟩
  intro sl l h
  cases hr : readLE sl 0 2 with
  | none => simp [processSlot, hr] at h
  | some w =>
    cases hwb : (w &&& 0xFFF0 == 0) with
    | true => simp [processSlot, hr, hwb] at h
    | false =>
      cases hnew : DirEntry.new sl with
      | none => simp [processSlot, hr, hwb, hnew] at h
      | some e =>
        cases hab : (e.attributes &&& 0x0F != 0) with
        | true => simp [processSlot, hr, hwb, hnew, hab] at h
        | false =>
          cases hn : utf8Valid e.file_name with
          | false => simp [processSlot, hr, hwb, hnew, hab, hn] at h
          | true =>
            cases hx : utf8Valid e.file_ext with
            | false => simp [processSlot, hr, hwb, hnew, hab, hn, hx, or16_beq_false] at h
            | true =>
              cases hts : to_datetime e.create_date e.create_time with
              | none => simp [processSlot, hr, hwb, hnew, hab, hn, hx, hts, or16_beq_false] at h
              | some ts =>
                have hstep : processSlot sl = SlotStep.emit
                    ⟨'f', e.file_size, trimSpaces e.file_name,
                     some (trimSpaces e.file_ext), ts⟩ := by
                  simp [processSlot, hr, hwb, hnew, hab, hn, hx, hts, or16_beq_false]
                rw [hstep] at h
                injection h with h2
                subst h2
                exact ⟨rfl, e, rfl, rfl⟩

/-- Witness for `claim4` at a concrete live slot. -/
theorem claim4_witness :
    w4line.marker = 'f' ∧
      ∃ e, DirEntry.new w4slot = some e ∧ w4line.ext = some (trimSpaces e.file_ext) :=
  claim4.2 w4slot w4line (by decide)

/-- Claim C7: parsing a synthetically constructed 512-byte boot sector whose
fields are placed little-endian at the standard FAT BPB offsets recovers
exactly the encoded field values. -/
theorem claim7 (osn lbl fst : List Nat)
    (bps spc resv fats rde total spf spt heads bsig vid : Nat)
    (h1 : osn.length = 8) (h2 : lbl.length = 11) (h3 : fst.length = 54)
    (hb : bps < 65536) (hc : spc < 256) (hr : resv < 65536) (hf : fats < 256)
    (he : rde < 65536) (ht : total < 65536) (hs : spf < 65536) (hk : spt < 65536)
    (hh : heads < 65536) (hg : bsig < 256) (hv : vid < 4294967296) :
    DiskInfo.new (mkBootSector osn bps spc resv fats rde total spf spt heads bsig vid lbl fst) =
      some ⟨osn, bps, spc, resv, fats, rde, total, spf, spt, heads, bsig, vid, lbl, fst⟩ := by
  unfold DiskInfo.new mkBootSector
  simp [readLE, readU8, readBytes_cons, readBytes_shift, readBytes_prefix, readBytes_head,
    length_le16, length_le32, length_pad, h1, h2, h3,
    leDec_single, leDec_le16, leDec_le32, hb, hr, he, ht, hs, hk, hh, hv]

/-- Witness for `claim7` at a concrete 1.44 MB-floppy-style boot sector. -/
theorem claim7_witness :
    DiskInfo.new (mkBootSector [77, 83, 68, 79, 83, 53, 46, 48]
        512 1 1 2 224 2880 9 18 2 41 305419896 (pad 11) (pad 54)) =
      some ⟨[77, 83, 68, 79, 83, 53, 46, 48], 512, 1, 1, 2, 224, 2880, 9, 18, 2, 41,
            305419896, pad 11, pad 54⟩ :=
  claim7 [77, 83, 68, 79, 83, 53, 46, 48] (pad 11) (pad 54)
    512 1 1 2 224 2880 9 18 2 41 305419896
    (by decide) (by decide) (by decide) (by decide) (by decide) (by decide) (by decide)
    (by decide) (by decide) (by decide) (by decide) (by decide) (by decide) (by decide)

end Fat12
